import Mathlib

/-!
Shallow embedding of the trading decision loop in `onE(agg).py`.

Python floats are modelled as exact rationals (`ℚ`), timestamps as integer
seconds (`ℤ`).  The external collaborators (Binance client, persisted model)
are modelled as inputs of each cycle: a `fetchOk` flag stands for the four
client calls succeeding, `closes` stands for the feature dataframe produced
by `calculate_indicators` (each row represented by its close price, the
stand-in for the full feature row), and `oracle` stands for the persisted
classifier consumed through `predict`.
-/

namespace OnE

/-- Round-half-to-even of a rational to an integer, as Python's builtin
`round` behaves on the exactly-represented values modelled here. -/
def roundHalfEven (x : ℚ) : ℤ :=
  if x - ⌊x⌋ < 1/2 then ⌊x⌋
  else if (1 : ℚ)/2 < x - ⌊x⌋ then ⌊x⌋ + 1
  else if ⌊x⌋ % 2 = 0 then ⌊x⌋ else ⌊x⌋ + 1

/-- Python `round(x, ndigits)` over exact rationals. -/
def pyround (x : ℚ) (ndigits : ℕ) : ℚ :=
  (roundHalfEven (x * (10 : ℚ) ^ ndigits) : ℚ) / (10 : ℚ) ^ ndigits

/-- State of `PositionManager` (source lines 58–89): `in_position` flag and
the four nullable fields. -/
structure PositionManager where
  in_position : Bool
  entry_price : Option ℚ
  take_profit : Option ℚ
  stop_loss : Option ℚ
  quantity : Option ℚ
deriving DecidableEq

/-- Constructor `PositionManager.__init__` (lines 59–64): flat, all fields
`None`. -/
def PositionManager.new : PositionManager :=
  ⟨false, none, none, none, none⟩

/-- Method `open_position` (lines 66–72): unconditionally sets the
flag, entry, quantity, and `take_profit = price * tp_multiplier`,
`stop_loss = price * sl_multiplier` (defaults 1.007 / 0.985). -/
def PositionManager.open_position (pm : PositionManager) (price quantity : ℚ)
    (tp_multiplier : ℚ := 1.007) (sl_multiplier : ℚ := 0.985) : PositionManager :=
  { pm with
    in_position := true
    entry_price := some price
    quantity := some quantity
    take_profit := some (price * tp_multiplier)
    stop_loss := some (price * sl_multiplier) }

/-- Method `should_close_position` (lines 74–81).  The Python body
compares `current_price` with `self.take_profit` first and, only when that
comparison is false, with `self.stop_loss`.  When the compared field is
`None` (flat state) the comparison raises a `TypeError`; this is modelled by
the result `none`, while a normal boolean return is `some b`. -/
def PositionManager.should_close_position (pm : PositionManager)
    (current_price : ℚ) : Option Bool :=
  match pm.take_profit with
  | none => none
  | some tp =>
    if tp ≤ current_price then some true
    else
      match pm.stop_loss with
      | none => none
      | some sl =>
        if current_price ≤ sl then some true else some false

/-- Method `close_position` (lines 83–89): clears the flag and all
four fields. -/
def PositionManager.close_position (_ : PositionManager) : PositionManager :=
  ⟨false, none, none, none, none⟩

/-- Field-consistency invariant of `PositionManager`: flat means all four
fields are `None`, long means all four are set. -/
def PositionManager.consistent (pm : PositionManager) : Prop :=
  (pm.in_position = false →
     pm.entry_price = none ∧ pm.take_profit = none ∧
     pm.stop_loss = none ∧ pm.quantity = none) ∧
  (pm.in_position = true →
     pm.entry_price.isSome = true ∧ pm.take_profit.isSome = true ∧
     pm.stop_loss.isSome = true ∧ pm.quantity.isSome = true)

instance (pm : PositionManager) : Decidable pm.consistent := by
  unfold PositionManager.consistent; infer_instance

/-- Seconds attribute of a Python `timedelta` holding `delta` whole seconds:
`timedelta` normalises to `days`/`seconds`/`microseconds` with
`0 ≤ seconds < 86400`, so `.seconds` is the floor-modulus by 86400 (Python's
`%`, which `Int.emod` matches for a positive modulus). -/
def timedelta_seconds (delta : ℤ) : ℤ := delta % 86400

/-- Function `can_trade` (lines 144–149) acting on the global `last_trade_time`:
returns the boolean result and the timestamp state after the call.  The
Python test is `not last_trade_time or (now - last).seconds > 60`. -/
def can_trade (last_trade_time : Option ℤ) (now : ℤ) : Bool × Option ℤ :=
  match last_trade_time with
  | none => (true, some now)
  | some t =>
    if 60 < timedelta_seconds (now - t) then (true, some now)
    else (false, some t)

/-- Function `add_target` (lines 110–115) on the stand-in dataframe: each input row is
represented by its close.  Row `t` gets
`future_return = close[t+horizon]/close[t] - 1` and a target in {-1,0,1};
`shift(-horizon)` leaves `NaN` in the last `horizon` rows, which the final
`dropna()` removes (closes are market prices, assumed nonzero, so the
division itself introduces no further `NaN`).  Output rows are
`(close, (future_return, target))`. -/
def add_target (df : List ℚ) (horizon : ℕ := 3) : List (ℚ × ℚ × ℤ) :=
  (List.range df.length).filterMap fun t =>
    match df[t]?, df[t + horizon]? with
    | some c, some cf =>
      let fr := cf / c - 1
      some (c, fr, if 0.002 < fr then 1 else if fr < -0.002 then -1 else 0)
    | _, _ => none

/-- Constant `CONFIDENCE_THRESHOLD` (line 140). -/
def CONFIDENCE_THRESHOLD : ℚ := 0.6

/-- Exceptions a cycle of `main` can raise.  `dataUnavailable` stands for a
failure of any of the Binance client calls, `zeroDivision` for the
`(bid - ask)/(bid + ask)` or `trade_usdt/live_price` float divisions by
zero, `insufficientHistory` for `df.iloc[-1]` on an empty dataframe, and
`typeError` for a `None` comparison inside `should_close_position`. -/
inductive Err where
  | dataUnavailable
  | zeroDivision
  | insufficientHistory
  | typeError
deriving DecidableEq

/-- Order request handed to `client.client.create_order`: a market BUY for a
quote-currency amount or a market SELL for the held (nullable) quantity. -/
inductive OrderReq where
  | buy (quoteOrderQty : ℚ)
  | sell (quantity : Option ℚ)
deriving DecidableEq

/-- Inputs of one cycle of `main` that come from outside the process. -/
structure Env where
  /-- The four Binance client calls of lines 157–162 succeed. -/
  fetchOk : Bool
  /-- Result of `client.get_price()`. -/
  price : ℚ
  /-- Result of `client.get_usdt_balance()`. -/
  balance : ℚ
  /-- Result of `client.get_order_book_stats()`, first component. -/
  bidVolume : ℚ
  /-- Result of `client.get_order_book_stats()`, second component. -/
  askVolume : ℚ
  /-- Rows of `calculate_indicators(...)` after its `dropna()`, each
  represented by its close price. -/
  closes : List ℚ
  /-- The persisted classifier behind `predict`: feature row ↦
  `(class, confidence)`. -/
  oracle : ℚ → ℤ × ℚ
  /-- Whether `client.client.create_order` succeeds (otherwise it raises,
  which the `try`/`except` of lines 178–202 catches). -/
  orderOk : Bool
  /-- Value of `datetime.now()` in whole seconds. -/
  now : ℤ

/-- Outcome of one call to `main`: position state and cooldown timestamp
after the call, the exception escaping `main` if any, and the order request
submitted to the exchange if any (recorded even when the venue rejects it). -/
structure CycleResult where
  pm : PositionManager
  lastTrade : Option ℤ
  err : Option Err
  order : Option OrderReq

/-- One call of `main` (lines 151–204).  Mirrors the source order: cooldown
gate, data fetch, the order-book-imbalance division of the log line 160,
labeling via `add_target`, prediction on `df.iloc[-1]` of the labelled
dataframe, confidence gate, then the flat/long decision with the
`try`/`except` around order submission. -/
def main_step (env : Env) (pm : PositionManager) (lastTrade : Option ℤ) :
    CycleResult :=
  match can_trade lastTrade env.now with
  | (false, lt) => ⟨pm, lt, none, none⟩
  | (true, lt) =>
    if env.fetchOk = false then ⟨pm, lt, some Err.dataUnavailable, none⟩
    else if env.bidVolume + env.askVolume = 0 then
      ⟨pm, lt, some Err.zeroDivision, none⟩
    else
      match (add_target env.closes 3).getLast? with
      | none => ⟨pm, lt, some Err.insufficientHistory, none⟩
      | some row =>
        let pc := env.oracle row.1
        if pc.2 < CONFIDENCE_THRESHOLD then ⟨pm, lt, none, none⟩
        else if pm.in_position = false then
          if pc.1 = 1 then
            let trade_usdt := pyround (env.balance * 0.20) 2
            if env.price = 0 then ⟨pm, lt, some Err.zeroDivision, none⟩
            else
              let btc_amount := pyround (trade_usdt / env.price) 6
              if env.orderOk then
                ⟨pm.open_position env.price btc_amount, lt, none,
                  some (OrderReq.buy trade_usdt)⟩
              else ⟨pm, lt, none, some (OrderReq.buy trade_usdt)⟩
          else ⟨pm, lt, none, none⟩
        else
          if pc.1 = -1 then
            match pm.should_close_position env.price with
            | none => ⟨pm, lt, some Err.typeError, none⟩
            | some true =>
              if env.orderOk then
                ⟨pm.close_position, lt, none, some (OrderReq.sell pm.quantity)⟩
              else ⟨pm, lt, none, some (OrderReq.sell pm.quantity)⟩
            | some false => ⟨pm, lt, none, none⟩
          else ⟨pm, lt, none, none⟩

/-- Loop `run_forever` (lines 207–211) over a finite prefix of cycles, one `Env`
per iteration.  The loop body has no exception handler, so an exception
escaping `main` terminates the whole loop; that is the `.error` case. -/
def run_cycles : List Env → PositionManager × Option ℤ →
    Except Err (PositionManager × Option ℤ)
  | [], st => .ok st
  | env :: rest, (pm, lt) =>
    let r := main_step env pm lt
    match r.err with
    | some e => .error e
    | none => run_cycles rest (r.pm, r.lastTrade)

/-- Oracle stand-in predicting class +1 with confidence 3/4. -/
def oracleBuy : ℚ → ℤ × ℚ := fun _ => (1, 3/4)

/-- Oracle stand-in predicting class -1 with confidence 3/4. -/
def oracleSell : ℚ → ℤ × ℚ := fun _ => (-1, 3/4)

/-- Oracle stand-in predicting class 0 with confidence 1. -/
def oracleHold : ℚ → ℤ × ℚ := fun _ => (0, 1)

/-- A healthy cycle environment: all fetches succeed, order book 30/10, a
four-bar constant close history (so the labelled dataframe keeps exactly one
row), clock at 0. -/
def mkEnv (price balance : ℚ) (oracle : ℚ → ℤ × ℚ) (orderOk : Bool) : Env :=
  { fetchOk := true
    price := price
    balance := balance
    bidVolume := 30
    askVolume := 10
    closes := [100, 100, 100, 100]
    oracle := oracle
    orderOk := orderOk
    now := 0 }

/-- Environment whose order book reports zero volume on both sides. -/
def envZeroVolume : Env :=
  { mkEnv 100 1000 oracleHold true with bidVolume := 0, askVolume := 0 }

/-- Environment whose market-data fetch fails. -/
def envFetchFail : Env :=
  { mkEnv 100 1000 oracleHold true with fetchOk := false }

/-- A long position opened at 100 for quantity 2 with the default
multipliers. -/
def pmLong : PositionManager := PositionManager.new.open_position 100 2

/-- Healthy environment at price 100.8 (take-profit breach for `pmLong`)
whose oracle predicts class -1; order submission succeeds. -/
def envSellOk : Env := mkEnv 100.8 1000 oracleSell true

/-- Healthy environment at price 100.8 whose oracle predicts class -1; order
submission fails (the venue raises). -/
def envSellFail : Env := mkEnv 100.8 1000 oracleSell false

/-- Healthy environment at price 100, balance 1000, oracle class +1; order
submission succeeds. -/
def envBuyOk : Env := mkEnv 100 1000 oracleBuy true

/-- Healthy environment at price 100, balance 1001.23, oracle class +1:
1001.23 × 0.20 = 200.246 is not representable in two decimals, so the cent
rounding of `trade_usdt` is observable. -/
def envC8 : Env := mkEnv 100 1001.23 oracleBuy true

/-- Healthy environment whose oracle predicts class 0. -/
def envHold : Env := mkEnv 100 1000 oracleHold true

lemma roundHalfEven_eq_low {x : ℚ} {n : ℤ} (h0 : (n : ℚ) ≤ x)
    (h1 : x < (n : ℚ) + 1/2) : roundHalfEven x = n := by
  have hf : ⌊x⌋ = n := Int.floor_eq_iff.mpr ⟨h0, by linarith⟩
  unfold roundHalfEven
  rw [hf, if_pos (by linarith)]

lemma roundHalfEven_eq_high {x : ℚ} {n : ℤ} (h0 : (n : ℚ) + 1/2 < x)
    (h1 : x ≤ (n : ℚ) + 1) : roundHalfEven x = n + 1 := by
  rcases eq_or_lt_of_le h1 with heq | hlt
  · have hf : ⌊x⌋ = n + 1 := by
      rw [heq]
      exact_mod_cast Int.floor_intCast (n + 1)
    unfold roundHalfEven
    rw [hf, if_pos (by push_cast; rw [heq]; linarith)]
  · have hf : ⌊x⌋ = n := Int.floor_eq_iff.mpr ⟨by linarith, by linarith⟩
    unfold roundHalfEven
    rw [hf, if_neg (by linarith), if_pos (by linarith)]

lemma pyround_eq_low {x : ℚ} {k : ℕ} {n : ℤ} (h0 : (n : ℚ) ≤ x * 10 ^ k)
    (h1 : x * 10 ^ k < (n : ℚ) + 1/2) : pyround x k = (n : ℚ) / 10 ^ k := by
  unfold pyround
  rw [roundHalfEven_eq_low h0 h1]

lemma pyround_eq_high {x : ℚ} {k : ℕ} {n : ℤ} (h0 : (n : ℚ) + 1/2 < x * 10 ^ k)
    (h1 : x * 10 ^ k ≤ (n : ℚ) + 1) : pyround x k = ((n : ℚ) + 1) / 10 ^ k := by
  unfold pyround
  rw [roundHalfEven_eq_high h0 h1]
  push_cast
  ring

lemma add_target_four (c0 c1 c2 c3 : ℚ) :
    add_target [c0, c1, c2, c3] 3 =
      [(c0, c3 / c0 - 1,
        if 0.002 < c3 / c0 - 1 then 1
        else if c3 / c0 - 1 < -0.002 then -1 else 0)] := by
  simp [add_target, List.range_succ]

lemma mkEnv_getLast (price balance : ℚ) (oracle : ℚ → ℤ × ℚ) (orderOk : Bool) :
    (add_target (mkEnv price balance oracle orderOk).closes 3).getLast? =
      some (100, 0, 0) := by
  show (add_target [100, 100, 100, 100] 3).getLast? = some (100, 0, 0)
  rw [add_target_four]
  norm_num

lemma run_cycles_cons (env : Env) (rest : List Env) (pm : PositionManager)
    (lt : Option ℤ) :
    run_cycles (env :: rest) (pm, lt) =
      match (main_step env pm lt).err with
      | some e => .error e
      | none => run_cycles rest ((main_step env pm lt).pm,
          (main_step env pm lt).lastTrade) := rfl

lemma main_step_cooldown (env : Env) (pm : PositionManager) (lt lt2 : Option ℤ)
    (h : can_trade lt env.now = (false, lt2)) :
    main_step env pm lt = ⟨pm, lt2, none, none⟩ := by
  unfold main_step
  rw [h]

lemma main_step_fetch_fail (env : Env) (pm : PositionManager) (lt lt2 : Option ℤ)
    (h : can_trade lt env.now = (true, lt2)) (hf : env.fetchOk = false) :
    main_step env pm lt = ⟨pm, lt2, some Err.dataUnavailable, none⟩ := by
  unfold main_step
  rw [h]
  dsimp only
  rw [if_pos hf]

lemma main_step_zero_vol (env : Env) (pm : PositionManager) (lt lt2 : Option ℤ)
    (hct : can_trade lt env.now = (true, lt2)) (hfetch : env.fetchOk = true)
    (hvol : env.bidVolume + env.askVolume = 0) :
    main_step env pm lt = ⟨pm, lt2, some Err.zeroDivision, none⟩ := by
  unfold main_step
  rw [hct]
  dsimp only
  rw [if_neg (by simp [hfetch]), if_pos hvol]

lemma main_step_no_rows (env : Env) (pm : PositionManager) (lt lt2 : Option ℤ)
    (hct : can_trade lt env.now = (true, lt2)) (hfetch : env.fetchOk = true)
    (hvol : env.bidVolume + env.askVolume ≠ 0)
    (hrow : (add_target env.closes 3).getLast? = none) :
    main_step env pm lt = ⟨pm, lt2, some Err.insufficientHistory, none⟩ := by
  unfold main_step
  rw [hct]
  dsimp only
  rw [if_neg (by simp [hfetch]), if_neg hvol, hrow]

lemma main_step_decision (env : Env) (pm : PositionManager) (lt lt2 : Option ℤ)
    (row : ℚ × ℚ × ℤ) (pred : ℤ) (conf : ℚ)
    (hct : can_trade lt env.now = (true, lt2))
    (hfetch : env.fetchOk = true)
    (hvol : env.bidVolume + env.askVolume ≠ 0)
    (hrow : (add_target env.closes 3).getLast? = some row)
    (horacle : env.oracle row.1 = (pred, conf)) :
    main_step env pm lt =
      if conf < CONFIDENCE_THRESHOLD then ⟨pm, lt2, none, none⟩
      else if pm.in_position = false then
        if pred = 1 then
          if env.price = 0 then ⟨pm, lt2, some Err.zeroDivision, none⟩
          else if env.orderOk then
            ⟨pm.open_position env.price
                (pyround (pyround (env.balance * 0.20) 2 / env.price) 6),
              lt2, none, some (OrderReq.buy (pyround (env.balance * 0.20) 2))⟩
          else ⟨pm, lt2, none, some (OrderReq.buy (pyround (env.balance * 0.20) 2))⟩
        else ⟨pm, lt2, none, none⟩
      else if pred = -1 then
        match pm.should_close_position env.price with
        | none => ⟨pm, lt2, some Err.typeError, none⟩
        | some true =>
          if env.orderOk then
            ⟨pm.close_position, lt2, none, some (OrderReq.sell pm.quantity)⟩
          else ⟨pm, lt2, none, some (OrderReq.sell pm.quantity)⟩
        | some false => ⟨pm, lt2, none, none⟩
      else ⟨pm, lt2, none, none⟩ := by
  unfold main_step
  rw [hct]
  dsimp only
  rw [if_neg (by simp [hfetch]), if_neg hvol, hrow]
  dsimp only
  rw [horacle]

lemma should_close_position_isSome (pm : PositionManager) (p : ℚ)
    (htp : pm.take_profit.isSome = true) (hsl : pm.stop_loss.isSome = true) :
    (pm.should_close_position p).isSome = true := by
  unfold PositionManager.should_close_position
  rcases h1 : pm.take_profit with _ | tp
  · simp [h1] at htp
  rcases h2 : pm.stop_loss with _ | sl
  · simp [h2] at hsl
  dsimp only
  split_ifs <;> simp

lemma main_step_long_frame (env : Env) (pm : PositionManager) (lt : Option ℤ)
    (hlong : pm.in_position = true) :
    (main_step env pm lt).pm = pm ∨
    (main_step env pm lt).pm.in_position = false := by
  rcases hct : can_trade lt env.now with ⟨b, lt2⟩
  cases b
  · rw [main_step_cooldown env pm lt lt2 hct]
    exact .inl rfl
  · rcases hfb : env.fetchOk with _ | _
    · rw [main_step_fetch_fail env pm lt lt2 hct hfb]
      exact .inl rfl
    · by_cases hvol : env.bidVolume + env.askVolume = 0
      · rw [main_step_zero_vol env pm lt lt2 hct hfb hvol]
        exact .inl rfl
      · rcases hrow : (add_target env.closes 3).getLast? with _ | row
        · rw [main_step_no_rows env pm lt lt2 hct hfb hvol hrow]
          exact .inl rfl
        · rcases hor : env.oracle row.1 with ⟨pred, conf⟩
          rw [main_step_decision env pm lt lt2 row pred conf hct hfb hvol hrow hor]
          by_cases h1 : conf < CONFIDENCE_THRESHOLD
          · rw [if_pos h1]; exact .inl rfl
          · rw [if_neg h1, if_neg (by simp [hlong])]
            by_cases h3 : pred = -1
            · rw [if_pos h3]
              rcases hsc : pm.should_close_position env.price with _ | bb
              · exact .inl rfl
              · cases bb
                · exact .inl rfl
                · by_cases ho : env.orderOk = true
                  · rw [if_pos ho]; exact .inr rfl
                  · rw [if_neg ho]; exact .inl rfl
            · rw [if_neg h3]; exact .inl rfl

/-- Claim C1 (amended): when both thresholds are set (the `Long` state),
`should_close_position p` returns `some true` exactly when
`take_profit ≤ p` or `p ≤ stop_loss` and `some false` otherwise; when
`take_profit` is `None` (the `Flat` state) the comparison with `None` raises
a `TypeError` (result `none`) instead of returning false. -/
theorem C1_should_close_spec (pm : PositionManager) (tp sl p : ℚ)
    (htp : pm.take_profit = some tp) (hsl : pm.stop_loss = some sl) :
    (pm.should_close_position p = some true ↔ (tp ≤ p ∨ p ≤ sl)) ∧
    (pm.should_close_position p = some false ↔ ¬(tp ≤ p ∨ p ≤ sl)) ∧
    (∀ pm' : PositionManager, pm'.take_profit = none →
      pm'.should_close_position p = none) := by
  unfold PositionManager.should_close_position
  rw [htp, hsl]
  dsimp only
  refine ⟨?_, ?_, ?_⟩
  · split_ifs with h1 h2 <;> simp_all
  · split_ifs with h1 h2 <;> simp_all
  · intro pm' h
    rw [h]

/-- Witness for C1 at the long position `pmLong` (TP 100.7, SL 98.5) and
price 100.8. -/
theorem C1_witness :
    ((pmLong.should_close_position 100.8 = some true ↔
        ((100.7 : ℚ) ≤ 100.8 ∨ (100.8 : ℚ) ≤ 98.5)) ∧
      (pmLong.should_close_position 100.8 = some false ↔
        ¬((100.7 : ℚ) ≤ 100.8 ∨ (100.8 : ℚ) ≤ 98.5)) ∧
      (∀ pm' : PositionManager, pm'.take_profit = none →
        pm'.should_close_position 100.8 = none)) := by
  exact C1_should_close_spec pmLong 100.7 98.5 100.8
    (by show some ((100 : ℚ) * 1.007) = some 100.7; norm_num)
    (by show some ((100 : ℚ) * 0.985) = some 98.5; norm_num)

/-- Counterexample for C1 as stated: on the freshly constructed `Flat` state
`should_close_position 99.5` raises (`none`), it does not return false. -/
theorem C1_flat_counterexample :
    PositionManager.new.should_close_position 99.5 = none := rfl

/-- Counterexample for C2 as stated: with exactly 60 seconds elapsed
(at least 60, as the claim requires for a true result), `can_trade` returns
false and leaves the timestamp unchanged, because the source compares with
a strict `> 60`. -/
theorem C2_counterexample :
    (60 : ℤ) - 0 ≥ 60 ∧ can_trade (some 0) 60 = (false, some 0) := by decide

/-- Claim C2 (amended): `can_trade` returns true and stores the current time
exactly when no prior timestamp exists or the seconds component of the
elapsed timedelta (the elapsed seconds modulo 86400) is strictly greater
than 60; otherwise it returns false and keeps the stored timestamp. -/
theorem C2_can_trade_spec (last : Option ℤ) (now : ℤ) :
    (can_trade last now = (true, some now) ↔
      (last = none ∨ ∃ t, last = some t ∧ 60 < (now - t) % 86400)) ∧
    (can_trade last now = (false, last) ↔
      ¬(last = none ∨ ∃ t, last = some t ∧ 60 < (now - t) % 86400)) := by
  cases last with
  | none => simp [can_trade]
  | some t =>
    unfold can_trade timedelta_seconds
    dsimp only
    split_ifs with h <;> simp_all

/-- Claim C3 is a code bug: `main` applies `add_target` to the feature
dataframe before `predict`, and its `dropna()` removes the last
`horizon = 3` rows (their forward return is `NaN`), so `df.iloc[-1]` inside
`predict` is the feature row three bars older than the most recent bar.  On
the seven-close history 100..106 the predicted row has close 103 while the
latest bar has close 106. -/
theorem C3_prediction_row :
    (add_target [100, 101, 102, 103, 104, 105, 106] 3).getLast? =
        some (103, 3/103, 1) ∧
    ([100, 101, 102, 103, 104, 105, 106] : List ℚ).getLast? = some 106 := by
  constructor
  · norm_num [add_target, List.range_succ]
  · rfl

/-- Claim C4: when order submission fails, the cycle leaves the position
state exactly as it was (neither `open_position` nor `close_position` runs),
and whenever an order was actually submitted in such a cycle no exception
escapes `main` (the `try`/`except` catches the failure). -/
theorem C4_exec_failure_frame (env : Env) (pm : PositionManager)
    (lt : Option ℤ) (horder : env.orderOk = false) :
    (main_step env pm lt).pm = pm ∧
    ((main_step env pm lt).order.isSome = true →
      (main_step env pm lt).err = none) := by
  rcases hct : can_trade lt env.now with ⟨b, lt2⟩
  cases b
  · rw [main_step_cooldown env pm lt lt2 hct]
    exact ⟨rfl, fun _ => rfl⟩
  · rcases hfb : env.fetchOk with _ | _
    · rw [main_step_fetch_fail env pm lt lt2 hct hfb]
      exact ⟨rfl, by simp⟩
    · by_cases hvol : env.bidVolume + env.askVolume = 0
      · rw [main_step_zero_vol env pm lt lt2 hct hfb hvol]
        exact ⟨rfl, by simp⟩
      · rcases hrow : (add_target env.closes 3).getLast? with _ | row
        · rw [main_step_no_rows env pm lt lt2 hct hfb hvol hrow]
          exact ⟨rfl, by simp⟩
        · rcases hor : env.oracle row.1 with ⟨pred, conf⟩
          rw [main_step_decision env pm lt lt2 row pred conf hct hfb hvol hrow hor]
          by_cases h1 : conf < CONFIDENCE_THRESHOLD
          · rw [if_pos h1]; exact ⟨rfl, fun _ => rfl⟩
          rw [if_neg h1]
          by_cases h2 : pm.in_position = false
          · rw [if_pos h2]
            by_cases h3 : pred = 1
            · rw [if_pos h3]
              by_cases h4 : env.price = 0
              · rw [if_pos h4]; exact ⟨rfl, by simp⟩
              · rw [if_neg h4, if_neg (by simp [horder])]
                exact ⟨rfl, fun _ => rfl⟩
            · rw [if_neg h3]; exact ⟨rfl, fun _ => rfl⟩
          · rw [if_neg h2]
            by_cases h3 : pred = -1
            · rw [if_pos h3]
              rcases hsc : pm.should_close_position env.price with _ | bb
              · exact ⟨rfl, by simp⟩
              · cases bb
                · exact ⟨rfl, fun _ => rfl⟩
                · dsimp only
                  rw [if_neg (by simp [horder])]
                  exact ⟨rfl, fun _ => rfl⟩
            · rw [if_neg h3]; exact ⟨rfl, fun _ => rfl⟩

/-- Witness for C4: a long position and a bearish cycle whose SELL
submission fails. -/
theorem C4_witness :
    (main_step envSellFail pmLong none).pm = pmLong ∧
    ((main_step envSellFail pmLong none).order.isSome = true →
      (main_step envSellFail pmLong none).err = none) :=
  C4_exec_failure_frame envSellFail pmLong none rfl

/-- Claim C5: in a cycle that starts `Long` and passes the confidence gate,
a SELL order is submitted exactly when the predicted class is -1 and
`should_close_position` returns true; otherwise the position state is
untouched and no order is issued; on submission success the position is
closed. -/
theorem C5_long_exit_gate (env : Env) (pm : PositionManager) (lt : Option ℤ)
    (row : ℚ × ℚ × ℤ) (pred : ℤ) (conf : ℚ)
    (hcan : (can_trade lt env.now).1 = true)
    (hfetch : env.fetchOk = true)
    (hvol : env.bidVolume + env.askVolume ≠ 0)
    (hrow : (add_target env.closes 3).getLast? = some row)
    (horacle : env.oracle row.1 = (pred, conf))
    (hconf : CONFIDENCE_THRESHOLD ≤ conf)
    (hlong : pm.in_position = true) :
    ((main_step env pm lt).order = some (OrderReq.sell pm.quantity) ↔
      (pred = -1 ∧ pm.should_close_position env.price = some true)) ∧
    (¬(pred = -1 ∧ pm.should_close_position env.price = some true) →
      (main_step env pm lt).pm = pm ∧ (main_step env pm lt).order = none) ∧
    (pred = -1 → pm.should_close_position env.price = some true →
      env.orderOk = true → (main_step env pm lt).pm = pm.close_position) := by
  rcases hct : can_trade lt env.now with ⟨b, lt2⟩
  rw [hct] at hcan
  dsimp at hcan
  subst hcan
  rw [main_step_decision env pm lt lt2 row pred conf hct hfetch hvol hrow horacle]
  rw [if_neg (not_lt.mpr hconf), if_neg (by simp [hlong])]
  by_cases hp : pred = -1
  · rw [if_pos hp]
    rcases hsc : pm.should_close_position env.price with _ | bb
    · exact ⟨by simp, fun _ => ⟨rfl, rfl⟩, fun _ h _ => nomatch h⟩
    · cases bb
      · exact ⟨by simp, fun _ => ⟨rfl, rfl⟩, fun _ h _ => by simp at h⟩
      · by_cases ho : env.orderOk = true
        · rw [if_pos ho]
          exact ⟨by simp [hp], fun hn => absurd ⟨hp, rfl⟩ hn, fun _ _ _ => rfl⟩
        · rw [if_neg ho]
          exact ⟨by simp [hp], fun hn => absurd ⟨hp, rfl⟩ hn,
            fun _ _ hok => absurd hok ho⟩
  · rw [if_neg hp]
    exact ⟨by simp [hp], fun _ => ⟨rfl, rfl⟩, fun h => absurd h hp⟩

/-- Witness for C5 at `pmLong` with price 100.8 (take-profit breach),
class -1, confidence 3/4. -/
theorem C5_witness :
    ((main_step envSellOk pmLong none).order =
        some (OrderReq.sell pmLong.quantity) ↔
      ((-1 : ℤ) = -1 ∧ pmLong.should_close_position envSellOk.price = some true)) ∧
    (¬((-1 : ℤ) = -1 ∧ pmLong.should_close_position envSellOk.price = some true) →
      (main_step envSellOk pmLong none).pm = pmLong ∧
      (main_step envSellOk pmLong none).order = none) ∧
    ((-1 : ℤ) = -1 → pmLong.should_close_position envSellOk.price = some true →
      envSellOk.orderOk = true →
      (main_step envSellOk pmLong none).pm = pmLong.close_position) :=
  C5_long_exit_gate envSellOk pmLong none (100, 0, 0) (-1) (3/4) rfl rfl
    (by norm_num [envSellOk, mkEnv]) (mkEnv_getLast 100.8 1000 oracleSell true)
    rfl (by norm_num [CONFIDENCE_THRESHOLD]) rfl

/-- Counterexample for C6 as stated: a cycle whose order book reports zero
volume on both sides raises `ZeroDivisionError` out of `main`, and
`run_forever` — whose body has no exception handler — stops instead of
proceeding to the next iteration. -/
theorem C6_counterexample :
    run_cycles [envZeroVolume] (PositionManager.new, none) =
      .error Err.zeroDivision := by
  rw [run_cycles_cons, main_step_zero_vol envZeroVolume PositionManager.new
    none (some 0) rfl rfl (by norm_num [envZeroVolume, mkEnv])]

/-- Claim C6 (amended): only an execution failure of the order submission is
terminal to the current cycle alone (no exception escapes `main` and the
loop continues); any other cycle error — here a data-fetch failure —
propagates out of `main` and stops the loop. -/
theorem C6_error_containment (env : Env) (envs : List Env)
    (pm : PositionManager) (lt : Option ℤ) :
    ((can_trade lt env.now).1 = true → env.fetchOk = false →
      run_cycles (env :: envs) (pm, lt) = .error Err.dataUnavailable) ∧
    (env.orderOk = false → env.fetchOk = true →
      env.bidVolume + env.askVolume ≠ 0 → env.price ≠ 0 → pm.consistent →
      ((add_target env.closes 3).getLast?).isSome = true →
      (main_step env pm lt).err = none ∧
      run_cycles (env :: envs) (pm, lt) =
        run_cycles envs ((main_step env pm lt).pm,
          (main_step env pm lt).lastTrade)) := by
  constructor
  · intro hcan hff
    rcases hct : can_trade lt env.now with ⟨b, lt2⟩
    rw [hct] at hcan
    dsimp at hcan
    subst hcan
    rw [run_cycles_cons, main_step_fetch_fail env pm lt lt2 hct hff]
  · intro horder hfetch hvol hprice hcons hsome
    have herr : (main_step env pm lt).err = none := by
      rcases hct : can_trade lt env.now with ⟨b, lt2⟩
      cases b
      · rw [main_step_cooldown env pm lt lt2 hct]
      · rcases hrow : (add_target env.closes 3).getLast? with _ | row
        · rw [hrow] at hsome
          simp at hsome
        · rcases hor : env.oracle row.1 with ⟨pred, conf⟩
          rw [main_step_decision env pm lt lt2 row pred conf hct hfetch hvol hrow hor]
          by_cases h1 : conf < CONFIDENCE_THRESHOLD
          · rw [if_pos h1]
          · rw [if_neg h1]
            by_cases h2 : pm.in_position = false
            · rw [if_pos h2]
              by_cases h3 : pred = 1
              · rw [if_pos h3, if_neg hprice, if_neg (by simp [horder])]
              · rw [if_neg h3]
            · rw [if_neg h2]
              by_cases h3 : pred = -1
              · rw [if_pos h3]
                have hl : pm.in_position = true := by
                  revert h2; cases pm.in_position <;> simp
                have hscs := should_close_position_isSome pm env.price
                  (hcons.2 hl).2.1 (hcons.2 hl).2.2.1
                rcases hsc : pm.should_close_position env.price with _ | bb
                · rw [hsc] at hscs
                  simp at hscs
                · cases bb
                  · rfl
                  · rw [if_neg (by simp [horder])]
              · rw [if_neg h3]
    refine ⟨herr, ?_⟩
    rw [run_cycles_cons, herr]

/-- Witness for C6: a failed fetch stops the loop with `DataUnavailable`,
while a failed SELL submission ends the cycle normally and the loop goes on. -/
theorem C6_witness :
    run_cycles [envFetchFail] (PositionManager.new, none) =
      .error Err.dataUnavailable ∧
    ((main_step envSellFail pmLong none).err = none ∧
      run_cycles [envSellFail] (pmLong, none) =
        run_cycles [] ((main_step envSellFail pmLong none).pm,
          (main_step envSellFail pmLong none).lastTrade)) :=
  ⟨(C6_error_containment envFetchFail [] PositionManager.new none).1 rfl rfl,
   (C6_error_containment envSellFail [] pmLong none).2 rfl rfl
     (by norm_num [envSellFail, mkEnv]) (by norm_num [envSellFail, mkEnv])
     (by decide)
     (by rw [show (add_target envSellFail.closes 3).getLast? = some (100, 0, 0)
           from mkEnv_getLast 100.8 1000 oracleSell false]; rfl)⟩

/-- Counterexample for C7 as stated: calling `open_position` while already
`Long` is neither a no-op nor an error — it silently replaces the existing
position (entry 100 becomes entry 200). -/
theorem C7_counterexample :
    pmLong.in_position = true ∧
    pmLong.open_position 200 3 ≠ pmLong ∧
    (pmLong.open_position 200 3).entry_price = some 200 := by
  refine ⟨rfl, ?_, rfl⟩
  intro h
  have h2 := congrArg PositionManager.entry_price h
  simp [pmLong, PositionManager.open_position, PositionManager.new] at h2

/-- Claim C7 (amended): `open_position` unconditionally overwrites all five
fields, so calling it while `Long` silently replaces the position;
`close_position` on a consistent `Flat` state is a no-op. -/
theorem C7_open_overwrites_close_noop (pm pm' : PositionManager)
    (p q tpm slm : ℚ) (hflat : pm'.in_position = false) (hcons : pm'.consistent) :
    (pm.open_position p q tpm slm).in_position = true ∧
    (pm.open_position p q tpm slm).entry_price = some p ∧
    (pm.open_position p q tpm slm).take_profit = some (p * tpm) ∧
    (pm.open_position p q tpm slm).stop_loss = some (p * slm) ∧
    (pm.open_position p q tpm slm).quantity = some q ∧
    pm'.close_position = pm' := by
  obtain ⟨he, ht, hs, hq⟩ := hcons.1 hflat
  refine ⟨rfl, rfl, rfl, rfl, rfl, ?_⟩
  cases pm'
  simp_all [PositionManager.close_position]

/-- Witness for C7: opening over the fresh flat state and closing the fresh
flat state. -/
theorem C7_witness :
    ((PositionManager.new.open_position 100 2 1.007 0.985).in_position = true ∧
      (PositionManager.new.open_position 100 2 1.007 0.985).entry_price = some 100 ∧
      (PositionManager.new.open_position 100 2 1.007 0.985).take_profit =
        some ((100 : ℚ) * 1.007) ∧
      (PositionManager.new.open_position 100 2 1.007 0.985).stop_loss =
        some ((100 : ℚ) * 0.985) ∧
      (PositionManager.new.open_position 100 2 1.007 0.985).quantity = some 2 ∧
      PositionManager.new.close_position = PositionManager.new) :=
  C7_open_overwrites_close_noop PositionManager.new PositionManager.new
    100 2 1.007 0.985 rfl (by decide)

/-- Counterexample for C8 as stated: with balance 1001.23 and price 100 the
BUY request carries 200.25 quote currency — `round(balance * 0.20, 2)` —
which differs from balance × 0.20 = 200.246. -/
theorem C8_counterexample :
    (main_step envC8 PositionManager.new none).order =
      some (OrderReq.buy (801/4)) ∧
    (801/4 : ℚ) ≠ envC8.balance * 0.20 := by
  constructor
  · rw [main_step_decision envC8 PositionManager.new none (some 0) (100, 0, 0)
      1 (3/4) rfl rfl (by norm_num [envC8, mkEnv])
      (mkEnv_getLast 100 1001.23 oracleBuy true) rfl]
    rw [if_neg (by norm_num [CONFIDENCE_THRESHOLD]),
      if_pos (show PositionManager.new.in_position = false from rfl),
      if_pos (show (1 : ℤ) = 1 from rfl),
      if_neg (show ¬envC8.price = 0 by norm_num [envC8, mkEnv]),
      if_pos (show envC8.orderOk = true from rfl)]
    have h1 : pyround (envC8.balance * 0.20) 2 = ((20024 : ℤ) + 1 : ℚ) / 10 ^ 2 :=
      pyround_eq_high (by norm_num [envC8, mkEnv]) (by norm_num [envC8, mkEnv])
    dsimp only
    rw [h1]
    norm_num
  · norm_num [envC8, mkEnv]

/-- Claim C8 (amended): in a flat cycle that passes the confidence gate with
class +1, the BUY request carries `round(balance * 0.20, 2)` quote currency
(the fixed fraction rounded to cents) and on success the position opens at
the live price with quantity `round(trade_usdt / price, 6)` and the default
TP/SL multipliers; a failed submission leaves the state flat. -/
theorem C8_buy_sizing (env : Env) (pm : PositionManager) (lt : Option ℤ)
    (row : ℚ × ℚ × ℤ) (conf : ℚ)
    (hcan : (can_trade lt env.now).1 = true)
    (hfetch : env.fetchOk = true)
    (hvol : env.bidVolume + env.askVolume ≠ 0)
    (hrow : (add_target env.closes 3).getLast? = some row)
    (horacle : env.oracle row.1 = (1, conf))
    (hconf : CONFIDENCE_THRESHOLD ≤ conf)
    (hflat : pm.in_position = false)
    (hprice : env.price ≠ 0) :
    (main_step env pm lt).order =
      some (OrderReq.buy (pyround (env.balance * 0.20) 2)) ∧
    (env.orderOk = true →
      (main_step env pm lt).pm =
        pm.open_position env.price
          (pyround (pyround (env.balance * 0.20) 2 / env.price) 6)) ∧
    (env.orderOk = false → (main_step env pm lt).pm = pm) := by
  rcases hct : can_trade lt env.now with ⟨b, lt2⟩
  rw [hct] at hcan
  dsimp at hcan
  subst hcan
  rw [main_step_decision env pm lt lt2 row 1 conf hct hfetch hvol hrow horacle]
  rw [if_neg (not_lt.mpr hconf), if_pos hflat, if_pos rfl, if_neg hprice]
  rcases ho : env.orderOk with _ | _
  · rw [if_neg (show ¬(false = true) by simp)]
    exact ⟨rfl, fun h => Bool.noConfusion h, fun _ => rfl⟩
  · rw [if_pos (show true = true from rfl)]
    exact ⟨rfl, fun _ => rfl, fun h => Bool.noConfusion h⟩

/-- Witness for C8: balance 1000, price 100 — trade size 200, quantity 2.0,
and TP/SL of the end-to-end example. -/
theorem C8_witness :
    (main_step envBuyOk PositionManager.new none).order =
      some (OrderReq.buy (pyround (envBuyOk.balance * 0.20) 2)) ∧
    ((main_step envBuyOk PositionManager.new none).pm =
      PositionManager.new.open_position envBuyOk.price
        (pyround (pyround (envBuyOk.balance * 0.20) 2 / envBuyOk.price) 6)) ∧
    pyround ((1000 : ℚ) * 0.20) 2 = 200 ∧
    pyround ((200 : ℚ) / 100) 6 = 2 ∧
    (PositionManager.new.open_position 100 2).take_profit = some 100.7 ∧
    (PositionManager.new.open_position 100 2).stop_loss = some 98.5 := by
  have h := C8_buy_sizing envBuyOk PositionManager.new none (100, 0, 0) (3/4)
    rfl rfl (by norm_num [envBuyOk, mkEnv])
    (mkEnv_getLast 100 1000 oracleBuy true) rfl
    (by norm_num [CONFIDENCE_THRESHOLD]) rfl (by norm_num [envBuyOk, mkEnv])
  refine ⟨h.1, h.2.1 rfl, ?_, ?_, ?_, ?_⟩
  · have h2 : pyround ((1000 : ℚ) * 0.20) 2 = ((20000 : ℤ) : ℚ) / 10 ^ 2 :=
      pyround_eq_low (by norm_num) (by norm_num)
    rw [h2]; norm_num
  · have h2 : pyround ((200 : ℚ) / 100) 6 = ((2000000 : ℤ) : ℚ) / 10 ^ 6 :=
      pyround_eq_low (by norm_num) (by norm_num)
    rw [h2]; norm_num
  · show some ((100 : ℚ) * 1.007) = some 100.7
    norm_num
  · show some ((100 : ℚ) * 0.985) = some 98.5
    norm_num

/-- Claim C9: `open_position` with the default multipliers sets
`take_profit = price * 1.007` and `stop_loss = price * 0.985`; for a
positive entry these satisfy `stop_loss < entry < take_profit`; and a cycle
that leaves the position open does not change any of its fields (no
re-pricing until close). -/
theorem C9_open_position_thresholds (pm pmL : PositionManager) (env : Env)
    (lt : Option ℤ) (p q : ℚ) (hp : 0 < p) (hlong : pmL.in_position = true)
    (hstill : (main_step env pmL lt).pm.in_position = true) :
    (pm.open_position p q).take_profit = some (p * 1.007) ∧
    (pm.open_position p q).stop_loss = some (p * 0.985) ∧
    (pm.open_position p q).entry_price = some p ∧
    p * 0.985 < p ∧ p < p * 1.007 ∧
    (main_step env pmL lt).pm = pmL := by
  refine ⟨rfl, rfl, rfl, by linarith, by linarith, ?_⟩
  rcases main_step_long_frame env pmL lt hlong with h | h
  · exact h
  · rw [hstill] at h
    cases h

/-- Witness for C9 at entry 100, quantity 2, and a cooldown-skipped cycle
that keeps `pmLong` open. -/
theorem C9_witness :
    ((PositionManager.new.open_position 100 2).take_profit =
        some ((100 : ℚ) * 1.007) ∧
      (PositionManager.new.open_position 100 2).stop_loss =
        some ((100 : ℚ) * 0.985) ∧
      (PositionManager.new.open_position 100 2).entry_price = some 100 ∧
      (100 : ℚ) * 0.985 < 100 ∧ (100 : ℚ) < 100 * 1.007 ∧
      (main_step envHold pmLong (some 0)).pm = pmLong) ∧
    (100 : ℚ) * 1.007 = 100.7 ∧ (100 : ℚ) * 0.985 = 98.5 :=
  ⟨C9_open_position_thresholds PositionManager.new pmLong envHold (some 0)
     100 2 (by norm_num) rfl rfl,
   by norm_num, by norm_num⟩

/-- Claim C10: construction, `open_position` and `close_position` all
produce states satisfying the field-consistency invariant — flat implies all
four fields `None`, long implies all four set. -/
theorem C10_consistency :
    PositionManager.new.consistent ∧
    (∀ (pm : PositionManager) (p q tpm slm : ℚ),
      (pm.open_position p q tpm slm).consistent) ∧
    (∀ pm : PositionManager, pm.close_position.consistent) := by
  refine ⟨⟨fun _ => ⟨rfl, rfl, rfl, rfl⟩, fun h => Bool.noConfusion h⟩, ?_, ?_⟩
  · intro pm p q tpm slm
    exact ⟨fun h => Bool.noConfusion h, fun _ => ⟨rfl, rfl, rfl, rfl⟩⟩
  · intro pm
    exact ⟨fun _ => ⟨rfl, rfl, rfl, rfl⟩, fun h => Bool.noConfusion h⟩

end OnE
